import Mathlib

/-!
Shallow embedding of the serial transport and session manager of
betaflight-configurator (src/js/protocols/NWSerial.js) together with the
device-selection algorithm exercised by test/js/port_handler.test.js.

The asynchronous JavaScript methods are modelled as pure functions from the
session state to a new state, the list of events dispatched during the call
(in dispatch order) and the returned value.  Environment nondeterminism
(whether the underlying open, write or close succeeds) is passed in as an
explicit parameter.
-/

namespace NWSerial

/-- Raw metadata of one enumerated system port, as returned by
`SerialPort.list()` and consumed by `_createPort`.  The optional string
fields model JavaScript fields that may be `undefined`. -/
structure PortInfo where
  path : String
  vendorId : Option String
  productId : Option String
  manufacturer : Option String
deriving DecidableEq, Repr

/-- Device descriptor produced by `_createPort`: path, derived display name,
parsed vendor/product ids and the raw metadata. -/
structure Device where
  path : String
  displayName : String
  vendorId : Option Nat
  productId : Option Nat
  port : PortInfo
deriving DecidableEq, Repr

/-- The `connectionInfo` object stored on a successful connect
(`usbVendorId` / `usbProductId`). -/
structure ConnInfo where
  usbVendorId : Option Nat
  usbProductId : Option Nat
deriving DecidableEq, Repr

/-- The underlying native serial handle owned by the session: its path and
whether it is open. -/
structure PortHandle where
  path : String
  isOpen : Bool
deriving DecidableEq, Repr

/-- The in-memory fields of the NWSerial session object that the lifecycle
methods read and write.  `connectionId` is `none` for the JavaScript value
`false`/`undefined`; `port` is `none` for `null`; `receiveAttached` records
whether `handleReceiveBytes` is currently registered as a "receive"
listener. -/
structure SerialState where
  connected : Bool
  openRequested : Bool
  openCanceled : Bool
  closeRequested : Bool
  transmitting : Bool
  reading : Bool
  connectionInfo : Option ConnInfo
  bitrate : Nat
  bytesSent : Nat
  bytesReceived : Nat
  failed : Nat
  ports : List Device
  port : Option PortHandle
  connectionId : Option String
  receiveAttached : Bool
deriving DecidableEq, Repr

/-- Events dispatched by the session and the device registry.  A
`connectEv none` is the JavaScript `connect` event with detail `false`;
`connectEv (some info)` carries the connection info.  `receiveEv` carries
the received chunk as a byte list. -/
inductive Event where
  | connectEv (detail : Option ConnInfo)
  | disconnectEv (ok : Bool)
  | receiveEv (chunk : List Nat)
  | addedDevice (d : Device)
  | removedDevice (d : Device)
deriving DecidableEq, Repr

/-- Result object of `send`: the JavaScript record `\x7bbytesSent\x7d`. -/
structure SendResult where
  bytesSent : Nat
deriving DecidableEq, Repr

/-- Outcome of the underlying `port.open` callback: the error case and the
success case. -/
inductive OpenOutcome where
  | err
  | ok
deriving DecidableEq, Repr

/-- Behaviour of the underlying `port.close` during `disconnect`:
`ok` closes cleanly, `cbError` reports an error to the close callback
(which the code only logs before resolving), `throws` raises synchronously
out of the close attempt and lands in the catch branch. -/
inductive CloseBehavior where
  | ok
  | cbError
  | throws
deriving DecidableEq, Repr

/-- True when `disconnect` would actually attempt to close the handle:
`this.port && this.port.isOpen`. -/
def closeAttempted (s : SerialState) : Bool :=
  match s.port with
  | some h => h.isOpen
  | none => false

/-- Model of `NWSerial.disconnect()`.  Returns the new state, the events
dispatched during the call and the returned boolean. -/
def disconnect (s : SerialState) (cb : CloseBehavior) :
    SerialState × List Event × Bool :=
  if !s.connected then (s, [], true)
  else
    let s1 := { s with connected := false, transmitting := false,
                       reading := false }
    if s.closeRequested then (s1, [], true)
    else
      let s2 := { s1 with closeRequested := true, receiveAttached := false }
      if closeAttempted s2 ∧ cb = CloseBehavior.throws then
        ({ s2 with closeRequested := false, connectionInfo := none,
                   openCanceled := false },
         [Event.disconnectEv false], false)
      else
        ({ s2 with port := none, connectionId := none, bitrate := 0,
                   connectionInfo := none, closeRequested := false,
                   openCanceled := false },
         [Event.disconnectEv true], true)

/-- Model of `NWSerial.connect(path, options)`.  The `outcome` parameter is
the result of the underlying `port.open` callback; the cancellation flag is
sampled from the state at the callback, as in the source.  Returns the new
state, the dispatched events and the resolved boolean. -/
def connect (s : SerialState) (path : String) (baud : Nat)
    (outcome : OpenOutcome) : SerialState × List Event × Bool :=
  if s.connected then (s, [], true)
  else
    let s1 := { s with openRequested := true, closeRequested := false }
    match s1.ports.find? (fun d => d.path == path) with
    | none => (s1, [Event.connectEv none], false)
    | some device =>
      let s2 := { s1 with port := some ⟨path, false⟩ }
      match outcome with
      | OpenOutcome.err =>
        ({ s2 with openRequested := false, port := none },
         [Event.connectEv none], false)
      | OpenOutcome.ok =>
        if s2.openCanceled then
          ({ s2 with openRequested := false, openCanceled := false,
                     port := none },
           [Event.connectEv none], false)
        else
          let info : ConnInfo := ⟨device.vendorId, device.productId⟩
          ({ s2 with connected := true, connectionId := some path,
                     bitrate := baud, bytesReceived := 0, bytesSent := 0,
                     failed := 0, openRequested := false, reading := true,
                     port := some ⟨path, true⟩, connectionInfo := some info,
                     receiveAttached := true },
           [Event.connectEv (some info)], true)

/-- Outcome of the underlying write-then-drain performed by `send`:
`ok` means both succeed; `drainErr` means the write succeeded but the
drain callback received an error — the source passes `resolve` itself as
the drain callback, so the promise is fulfilled (with the error as its
discarded value) and the await completes normally; `writeErr` means the
write callback received an error, which rejects the promise into the
catch branch. -/
inductive WriteOutcome where
  | ok
  | drainErr
  | writeErr
deriving DecidableEq, Repr

/-- Model of `NWSerial.send(data, callback)`.  `w` is the outcome of the
underlying write-then-drain; because a drain error fulfills rather than
rejects the awaited promise, only a write error reaches the catch branch,
and a drain error runs the success path.  `hasCallback` is whether a
callback was supplied.  Returns the new state, the dispatched events, the
returned result and the argument the callback was invoked with (`none`
when no callback was supplied). -/
def send (s : SerialState) (data : List Nat) (w : WriteOutcome)
    (hasCallback : Bool) :
    SerialState × List Event × SendResult × Option SendResult :=
  if !s.connected || s.port.isNone then
    (s, [], ⟨0⟩, if hasCallback then some ⟨0⟩ else none)
  else
    match w with
    | WriteOutcome.writeErr =>
      (s, [], ⟨0⟩, if hasCallback then some ⟨0⟩ else none)
    | WriteOutcome.ok | WriteOutcome.drainErr =>
      ({ s with bytesSent := s.bytesSent + data.length }, [],
       ⟨data.length⟩, if hasCallback then some ⟨data.length⟩ else none)

/-- Model of `handleReceiveBytes`: the internal "receive" listener adds the
byte length of the chunk to `bytesReceived`. -/
def handleReceiveBytes (s : SerialState) (len : Nat) : SerialState :=
  { s with bytesReceived := s.bytesReceived + len }

/-- Model of a "data" callback from the underlying port: while `reading`,
the chunk is dispatched as a "receive" event, which synchronously runs
`handleReceiveBytes` when that listener is attached. -/
def dataArrives (s : SerialState) (chunk : List Nat) :
    SerialState × List Event :=
  if s.reading then
    (if s.receiveAttached then handleReceiveBytes s chunk.length else s,
     [Event.receiveEv chunk])
  else (s, [])

/-- Model of the "error" handler installed on the port at connect time:
it calls `disconnect()` only while still connected. -/
def portError (s : SerialState) (cb : CloseBehavior) :
    SerialState × List Event :=
  if s.connected then
    let r := disconnect s cb
    (r.1, r.2.1)
  else (s, [])

/-- Model of the "close" handler installed on the port at connect time:
it calls `disconnect()` only while still connected. -/
def portClose (s : SerialState) (cb : CloseBehavior) :
    SerialState × List Event :=
  if s.connected then
    let r := disconnect s cb
    (r.1, r.2.1)
  else (s, [])

/-- Value of one hexadecimal digit character, or `none` for a non-digit. -/
def hexVal (c : Char) : Option Nat :=
  if '0' ≤ c ∧ c ≤ '9' then some (c.toNat - '0'.toNat)
  else if 'a' ≤ c ∧ c ≤ 'f' then some (c.toNat - 'a'.toNat + 10)
  else if 'A' ≤ c ∧ c ≤ 'F' then some (c.toNat - 'A'.toNat + 10)
  else none

/-- Accumulate the value of the maximal leading run of hex digits, stopping
at the first non-digit, as `parseInt(s, 16)` does. -/
def hexAccum (acc : Nat) : List Char → Nat
  | [] => acc
  | c :: rest =>
    match hexVal c with
    | some v => hexAccum (acc * 16 + v) rest
    | none => acc

/-- Model of `parseInt(s, 16)` on the bare hexadecimal id strings that
`SerialPort.list()` reports: `none` stands for `NaN` (no leading hex
digit); the optional whitespace and `0x` prefix handling of `parseInt` is
not modelled because enumerated ids are bare hex digits. -/
def parseIntHex (s : String) : Option Nat :=
  match s.data with
  | [] => none
  | c :: _ => if (hexVal c).isSome then some (hexAccum 0 s.data) else none

/-- JavaScript truthiness of an optional string field: present and
non-empty. -/
def truthyStr : Option String → Bool
  | none => false
  | some s => s ≠ ""

/-- Model of `NWSerial._createPort(portInfo)`.  The `vendorIdNames` lookup
table lives in src/js/protocols/devices.js, outside the verified sources,
so it is passed as a parameter (`none` models an absent table entry). -/
def createPort (vendorIdNames : Nat → Option String) (pi : PortInfo) :
    Device :=
  let vendorId : Option Nat :=
    if truthyStr pi.vendorId then parseIntHex (pi.vendorId.getD "")
    else none
  let productId : Option Nat :=
    if truthyStr pi.productId then parseIntHex (pi.productId.getD "")
    else none
  let vendorName : Option String :=
    match vendorId with
    | some v =>
      if v ≠ 0 then
        match vendorIdNames v with
        | some n => if n ≠ "" then some n else none
        | none => none
      else none
    | none => none
  let displayName :=
    match vendorName with
    | some n => n
    | none =>
      if truthyStr pi.manufacturer then pi.manufacturer.getD ""
      else pi.path
  { path := pi.path, displayName := "Betaflight " ++ displayName,
    vendorId := vendorId, productId := productId, port := pi }

/-- The removal loop of `_pollDevices`: it walks a snapshot of the port
list taken after the additions, and for each snapshot entry whose path is
absent from the freshly enumerated paths it filters that path out of the
live list and dispatches a `removedDevice` event. -/
def removeLoop (currentPaths : List String) :
    List Device → List Device → List Device × List Event
  | ports, [] => (ports, [])
  | ports, p :: rest =>
    if currentPaths.contains p.path then removeLoop currentPaths ports rest
    else
      let r := removeLoop currentPaths
        (ports.filter (fun q => q.path != p.path)) rest
      (r.1, Event.removedDevice p :: r.2)

/-- Model of one `NWSerial._pollDevices()` cycle on the known device list.
`result` is the outcome of `SerialPort.list()`: `none` models an
enumeration error, which leaves the known set unchanged and emits nothing.
The known-path list is computed once before the addition loop, as in the
source. -/
def pollDevices (vendorIdNames : Nat → Option String) (known : List Device)
    (result : Option (List PortInfo)) : List Device × List Event :=
  match result with
  | none => (known, [])
  | some systemPorts =>
    let currentPaths := systemPorts.map (fun p => p.path)
    let knownPaths := known.map (fun p => p.path)
    let addedInfos :=
      systemPorts.filter (fun pi => !(knownPaths.contains pi.path))
    let addedDevices := addedInfos.map (createPort vendorIdNames)
    let afterAdd := known ++ addedDevices
    let r := removeLoop currentPaths afterAdd afterAdd
    (r.1, addedDevices.map Event.addedDevice ++ r.2)

/-- The number of disconnect events in an event list. -/
def countDisconnectEvents (evs : List Event) : Nat :=
  (evs.filter (fun e =>
    match e with
    | Event.disconnectEv _ => true
    | _ => false)).length

/-- Raw metadata of a sample STM32 virtual COM port. -/
def piCOM3 : PortInfo :=
  ⟨"COM3", some "0483", some "5740", some "STMicroelectronics"⟩

/-- Descriptor of the sample port. -/
def devCOM3 : Device :=
  ⟨"COM3", "Betaflight STM Electronics", some 0x483, some 0x5740, piCOM3⟩

/-- Raw metadata of a second sample port with no ids. -/
def piCOM4 : PortInfo := ⟨"COM4", none, none, none⟩

/-- A disconnected session that knows about the sample port. -/
def sIdle : SerialState :=
  { connected := false, openRequested := false, openCanceled := false,
    closeRequested := false, transmitting := false, reading := false,
    connectionInfo := none, bitrate := 0, bytesSent := 0,
    bytesReceived := 0, failed := 0, ports := [devCOM3], port := none,
    connectionId := none, receiveAttached := false }

/-- A session in the Open state on the sample port. -/
def sOpen : SerialState :=
  { sIdle with connected := true, reading := true,
               port := some ⟨"COM3", true⟩, connectionId := some "COM3",
               bitrate := 115200,
               connectionInfo := some ⟨some 0x483, some 0x5740⟩,
               receiveAttached := true }

/-- One externally triggered operation on the session: a caller-issued
connect, send or disconnect, an inbound data chunk, or an unsolicited
error or close callback from the transport. -/
inductive SOp where
  | connectOp (path : String) (baud : Nat) (outcome : OpenOutcome)
  | sendOp (data : List Nat) (w : WriteOutcome) (hasCb : Bool)
  | dataOp (chunk : List Nat)
  | disconnectOp (cb : CloseBehavior)
  | portErrorOp (cb : CloseBehavior)
  | portCloseOp (cb : CloseBehavior)
deriving DecidableEq, Repr

/-- The state transition performed by one operation, with the events it
dispatches. -/
def step (s : SerialState) : SOp → SerialState × List Event
  | SOp.connectOp path baud outcome =>
    let r := connect s path baud outcome
    (r.1, r.2.1)
  | SOp.sendOp data w hasCb =>
    let r := send s data w hasCb
    (r.1, r.2.1)
  | SOp.dataOp chunk => dataArrives s chunk
  | SOp.disconnectOp cb =>
    let r := disconnect s cb
    (r.1, r.2.1)
  | SOp.portErrorOp cb => portError s cb
  | SOp.portCloseOp cb => portClose s cb

/-- Whether one operation is an entry to the Open state: the session was
disconnected before it and connected after it. -/
def stepEntersOpen (s : SerialState) (op : SOp) : Bool :=
  !s.connected && (step s op).1.connected

/-- Final state after a sequence of operations. -/
def run (s : SerialState) : List SOp → SerialState
  | [] => s
  | op :: rest => run (step s op).1 rest

/-- Whether no operation of the sequence is an entry to the Open state. -/
def noOpenEntry (s : SerialState) : List SOp → Bool
  | [] => true
  | op :: rest =>
    !stepEntersOpen s op && noOpenEntry (step s op).1 rest

end NWSerial

namespace PortHandler

/-- Device as seen by the port selector: path and display name. -/
structure PHDevice where
  path : String
  displayName : String
deriving DecidableEq, Repr

/-- Bool-valued check that `small` is an initial segment of `big`. -/
def leadsList : List Char → List Char → Bool
  | [], _ => true
  | _ :: _, [] => false
  | a :: as, b :: bs => a == b && leadsList as bs

/-- Bool-valued check that `needle` occurs contiguously inside the list. -/
def hasSeg (needle : List Char) : List Char → Bool
  | [] => needle.isEmpty
  | b :: bs => leadsList needle (b :: bs) || hasSeg needle bs

/-- Model of `String.prototype.includes`. -/
def strIncludes (hay needle : String) : Bool :=
  hasSeg needle.data hay.data

/-- Modelled from the spec: the fixed, ordered list of vendor/chipset
filter substrings of `selectActivePort` (one entry per supported
bootloader family).  src/js/port_handler.js is not among the verified
sources; the entries are chosen to agree with every scenario of
test/js/port_handler.test.js. -/
def portFilters : List String :=
  ["STM", "AT32", "Silicon", "CP210", "Geehy", "Raspberry", "SPR"]

/-- Modelled from the spec: scan the filter list in order and, for the
first filter matching any device (devices scanned in list order), return
the first device it matches. -/
def firstFilterMatch (filters : List String) (devices : List PHDevice) :
    Option PHDevice :=
  match filters with
  | [] => none
  | f :: rest =>
    match devices.find? (fun d => strIncludes d.displayName f) with
    | some d => some d
    | none => firstFilterMatch rest devices

/-- Modelled from the spec: `PortHandler.selectActivePort`, which is not
among the verified sources (only its test file is).  Inputs are the
ordered device groups (serial, then USB, then Bluetooth), the optional
suggested-device hint and the two mode flags; the result is the selection
(`none` is the JavaScript `undefined`) paired with the UI-facing
`portPicker.selectedPort` value after the call (`"noselection"` when
nothing was selected, per the spec and the test). -/
def selectActivePort (serialPorts usbPorts bluetoothPorts : List PHDevice)
    (suggested : Option PHDevice)
    (virtualModeEnabled manualModeEnabled : Bool) :
    Option String × String :=
  match suggested with
  | some d => (some d.path, d.path)
  | none =>
    let devices := serialPorts ++ usbPorts ++ bluetoothPorts
    match firstFilterMatch portFilters devices with
    | some d => (some d.path, d.path)
    | none =>
      if virtualModeEnabled then (some "virtual", "virtual")
      else if manualModeEnabled then (some "manual", "manual")
      else (none, "noselection")

/-- The STM Electronics device of the test scenarios. -/
def stmDev : PHDevice := ⟨"COM3", "Betaflight STM Electronics"⟩

/-- The unrecognized device of the test scenarios. -/
def unknownDev : PHDevice := ⟨"COM1", "Unknown Device"⟩

/-- The suggested-device hint of the test scenarios. -/
def hintDev : PHDevice := ⟨"COM10", ""⟩

end PortHandler

namespace NWSerial

/-- A step that is not an entry to Open never decreases either byte
counter. -/
theorem step_counters_mono (s : SerialState) (op : SOp)
    (h : stepEntersOpen s op = false) :
    s.bytesSent ≤ (step s op).1.bytesSent ∧
    s.bytesReceived ≤ (step s op).1.bytesReceived := by
  rcases op with ⟨path, baud, outcome⟩ | ⟨data, writeOk, hasCb⟩ | chunk
    | cb | cb | cb
  · by_cases hc : s.connected
    · simp [step, connect, hc]
    · simp only [Bool.not_eq_true] at hc
      simp only [stepEntersOpen, hc, Bool.not_false, Bool.true_and] at h
      simp only [step, connect, hc, Bool.false_eq_true, if_false] at h ⊢
      rcases hf : s.ports.find? (fun d => d.path == path) with _ | device <;>
        simp only [hf] at h ⊢
      · simp
      · rcases outcome with _ | _
        · simp
        · by_cases hoc : s.openCanceled
          · simp [hoc]
          · simp [hoc] at h
  · simp only [step, send]
    split
    · simp
    · split <;> simp [Nat.le_add_right]
  · simp only [step, dataArrives]
    split
    · split <;> simp [handleReceiveBytes, Nat.le_add_right]
    · simp
  · simp only [step, disconnect]
    split
    · simp
    · split
      · simp
      · split <;> simp
  · simp only [step, portError]
    split
    · simp only [disconnect]
      split
      · simp
      · split
        · simp
        · split <;> simp
    · simp
  · simp only [step, portClose]
    split
    · simp only [disconnect]
      split
      · simp
      · split
        · simp
        · split <;> simp
    · simp

/-- A step that enters the Open state resets both byte counters to 0. -/
theorem step_enters_open_counters (s : SerialState) (op : SOp)
    (h : stepEntersOpen s op = true) :
    (step s op).1.bytesSent = 0 ∧ (step s op).1.bytesReceived = 0 := by
  rcases op with ⟨path, baud, outcome⟩ | ⟨data, writeOk, hasCb⟩ | chunk
    | cb | cb | cb
  all_goals
    simp only [stepEntersOpen, Bool.and_eq_true, Bool.not_eq_true'] at h
    obtain ⟨hc, hopen⟩ := h
  · simp only [step, connect, hc, Bool.false_eq_true, if_false]
      at hopen ⊢
    rcases hf : s.ports.find? (fun d => d.path == path) with _ | device <;>
      simp only [hf] at hopen ⊢
    · simp at hopen
    · rcases outcome with _ | _
      · simp at hopen
      · by_cases hoc : s.openCanceled
        · simp [hoc] at hopen
        · simp [hoc]
  · simp [step, send, hc] at hopen
  · simp only [step, dataArrives] at hopen
    revert hopen
    split
    · split <;> simp [handleReceiveBytes, hc]
    · simp [hc]
  · simp [step, disconnect, hc] at hopen
  · simp [step, portError, hc] at hopen
  · simp [step, portClose, hc] at hopen

/-- C4: both byte counters are reset to 0 exactly on entries to the Open
state: every step entering Open zeroes them, no other step decreases
them (so they are monotonically non-decreasing between two consecutive
entries to Open, stated both per step and along any run without an
entry), each successful send adds exactly the byte length of its data to
bytesSent, and each inbound chunk delivered while reading adds exactly
its byte length to bytesReceived. -/
theorem C4_counters :
    (∀ s op, stepEntersOpen s op = true →
       (step s op).1.bytesSent = 0 ∧ (step s op).1.bytesReceived = 0) ∧
    (∀ s op, stepEntersOpen s op = false →
       s.bytesSent ≤ (step s op).1.bytesSent ∧
       s.bytesReceived ≤ (step s op).1.bytesReceived) ∧
    (∀ s (data : List Nat) (hasCb : Bool) (h : PortHandle),
       s.connected = true → s.port = some h →
       (send s data WriteOutcome.ok hasCb).1.bytesSent =
         s.bytesSent + data.length ∧
       (send s data WriteOutcome.ok hasCb).1.bytesReceived =
         s.bytesReceived) ∧
    (∀ s (chunk : List Nat), s.reading = true → s.receiveAttached = true →
       (dataArrives s chunk).1.bytesReceived =
         s.bytesReceived + chunk.length ∧
       (dataArrives s chunk).1.bytesSent = s.bytesSent) ∧
    (∀ s ops, noOpenEntry s ops = true →
       s.bytesSent ≤ (run s ops).bytesSent ∧
       s.bytesReceived ≤ (run s ops).bytesReceived) := by
  refine ⟨step_enters_open_counters, step_counters_mono, ?_, ?_, ?_⟩
  · intro s data hasCb h hc hp
    simp [send, hc, hp]
  · intro s chunk hr ha
    simp [dataArrives, handleReceiveBytes, hr, ha]
  · intro s ops
    induction ops generalizing s with
    | nil => intro _; exact ⟨Nat.le_refl _, Nat.le_refl _⟩
    | cons op rest ih =>
      intro h
      simp only [noOpenEntry, Bool.and_eq_true, Bool.not_eq_true'] at h
      obtain ⟨h1, h2⟩ := h
      have hmono := step_counters_mono s op h1
      have hrest := ih (step s op).1 h2
      exact ⟨Nat.le_trans hmono.1 hrest.1, Nat.le_trans hmono.2 hrest.2⟩

/-- C4 witness: counters reset on the concrete reconnect, send success
adds the chunk length, an inbound chunk adds its length, and a concrete
run without entries to Open does not decrease the counters. -/
theorem C4_counters_witness :
    ((step sIdle (SOp.connectOp "COM3" 115200 OpenOutcome.ok)).1.bytesSent
        = 0 ∧
     (step sIdle
        (SOp.connectOp "COM3" 115200 OpenOutcome.ok)).1.bytesReceived
        = 0) ∧
    (sOpen.bytesSent ≤
       (step sOpen (SOp.disconnectOp CloseBehavior.ok)).1.bytesSent ∧
     sOpen.bytesReceived ≤
       (step sOpen (SOp.disconnectOp CloseBehavior.ok)).1.bytesReceived) ∧
    ((send sOpen [1, 2, 3] WriteOutcome.ok false).1.bytesSent =
        sOpen.bytesSent + 3 ∧
     (send sOpen [1, 2, 3] WriteOutcome.ok false).1.bytesReceived =
        sOpen.bytesReceived) ∧
    ((dataArrives sOpen [7, 8]).1.bytesReceived =
        sOpen.bytesReceived + 2 ∧
     (dataArrives sOpen [7, 8]).1.bytesSent = sOpen.bytesSent) ∧
    (sOpen.bytesSent ≤
       (run sOpen [SOp.sendOp [1] WriteOutcome.ok false,
                   SOp.dataOp [2, 3]]).bytesSent ∧
     sOpen.bytesReceived ≤
       (run sOpen [SOp.sendOp [1] WriteOutcome.ok false,
                   SOp.dataOp [2, 3]]).bytesReceived) :=
  by
  have h1 : stepEntersOpen sIdle
      (SOp.connectOp "COM3" 115200 OpenOutcome.ok) = true := by decide
  have h2 : stepEntersOpen sOpen (SOp.disconnectOp CloseBehavior.ok)
      = false := by decide
  have h3 : sOpen.connected = true := by decide
  have h4 : sOpen.port = some ⟨"COM3", true⟩ := by decide
  have h5 : sOpen.reading = true := by decide
  have h6 : sOpen.receiveAttached = true := by decide
  have h7 : noOpenEntry sOpen
      [SOp.sendOp [1] WriteOutcome.ok false, SOp.dataOp [2, 3]] = true := by decide
  refine ⟨?_, ?_, ?_, ?_, ?_⟩
  · exact C4_counters.1 sIdle (SOp.connectOp "COM3" 115200 OpenOutcome.ok)
      h1
  · exact C4_counters.2.1 sOpen (SOp.disconnectOp CloseBehavior.ok) h2
  · exact C4_counters.2.2.1 sOpen [1, 2, 3] false ⟨"COM3", true⟩ h3 h4
  · exact C4_counters.2.2.2.1 sOpen [7, 8] h5 h6
  · exact C4_counters.2.2.2.2 sOpen
      [SOp.sendOp [1] WriteOutcome.ok false, SOp.dataOp [2, 3]] h7

/-- C7: disconnect is idempotent when not connected: from a disconnected
state it returns true, changes nothing and emits no event, and a second
consecutive call behaves the same, so no additional disconnect event is
emitted across the two calls. -/
theorem C7_disconnect_idempotent (s : SerialState)
    (cb1 cb2 : CloseBehavior) (h : s.connected = false) :
    disconnect s cb1 = (s, [], true) ∧
    disconnect (disconnect s cb1).1 cb2 = ((disconnect s cb1).1, [], true) := by
  constructor <;> simp [disconnect, h]

/-- C7 witness: the idempotence at the concrete disconnected state. -/
theorem C7_disconnect_idempotent_witness :
    disconnect sIdle CloseBehavior.ok = (sIdle, [], true) ∧
    disconnect (disconnect sIdle CloseBehavior.ok).1 CloseBehavior.ok =
      ((disconnect sIdle CloseBehavior.ok).1, [], true) :=
  C7_disconnect_idempotent sIdle CloseBehavior.ok CloseBehavior.ok rfl

/-- C2 counterexample: the claim says connect while connected is a no-op
success only on the same path, but the code does not compare paths: a
session open on "COM3" also returns true with no state change when asked
to connect to the different path "COM4". -/
theorem C2_connect_any_path_counterexample :
    connect sOpen "COM4" 115200 OpenOutcome.ok = (sOpen, [], true) ∧
    sOpen.connectionId = some "COM3" ∧ ("COM4" : String) ≠ "COM3" := by
  refine ⟨rfl, rfl, by decide⟩

/-- C2 amended: while connected, connect returns true immediately with no
state change and no event for every requested path, whether or not it
equals the currently connected path. -/
theorem C2_connect_noop_amended (s : SerialState) (q : String) (baud : Nat)
    (o : OpenOutcome) (h : s.connected = true) :
    connect s q baud o = (s, [], true) := by
  simp [connect, h]

/-- C2 witness: the amended no-op at the concrete open state. -/
theorem C2_connect_noop_amended_witness :
    connect sOpen "COM4" 9600 OpenOutcome.err = (sOpen, [], true) :=
  C2_connect_noop_amended sOpen "COM4" 9600 OpenOutcome.err rfl

/-- C10: when not connected or without a port reference, send returns
bytesSent 0, invokes the callback (when supplied) with that same result,
emits no event and leaves the whole state unchanged. -/
theorem C10_send_not_connected (s : SerialState) (data : List Nat)
    (w : WriteOutcome) (hasCb : Bool)
    (h : s.connected = false ∨ s.port = none) :
    send s data w hasCb =
      (s, [], ⟨0⟩, if hasCb then some ⟨0⟩ else none) := by
  rcases h with h | h <;> simp [send, h]

/-- C10 witness: the guarded send at the concrete disconnected state. -/
theorem C10_send_not_connected_witness :
    send sIdle [5, 6] WriteOutcome.ok true =
      (sIdle, [], ⟨0⟩, some ⟨0⟩) :=
  C10_send_not_connected sIdle [5, 6] WriteOutcome.ok true (Or.inl rfl)

/-- C6 counterexample: the claim says a drain failure also yields
bytesSent 0 with no counter change, but the source passes the drain
error to the resolve of the awaited promise, so a drain failure takes
the success path: at the open sample session, a send of three bytes with
a failing drain returns bytesSent 3 and increments the counter by 3. -/
theorem C6_send_drain_error_counterexample :
    (send sOpen [1, 2, 3] WriteOutcome.drainErr true).2.2.1 = ⟨3⟩ ∧
    (send sOpen [1, 2, 3] WriteOutcome.drainErr true).1.bytesSent =
      sOpen.bytesSent + 3 :=
  ⟨rfl, rfl⟩

/-- C6 amended: while Open, a failing write (whose error rejects the
awaited promise into the catch branch) returns bytesSent 0 and leaves
the state completely unchanged with no event: still connected on the
same connectionId, the handle retained, the counter not incremented;
a failing drain, whose error fulfills the awaited promise, instead runs
the success path: bytesSent is incremented by the byte length of the
data and that length is returned. -/
theorem C6_send_failure_amended (s : SerialState) (data : List Nat)
    (hasCb : Bool) (h : PortHandle) (hc : s.connected = true)
    (hp : s.port = some h) :
    (send s data WriteOutcome.writeErr hasCb =
       (s, [], ⟨0⟩, if hasCb then some ⟨0⟩ else none) ∧
     (send s data WriteOutcome.writeErr hasCb).1.connected = true ∧
     (send s data WriteOutcome.writeErr hasCb).1.connectionId =
       s.connectionId ∧
     (send s data WriteOutcome.writeErr hasCb).1.port = some h ∧
     (send s data WriteOutcome.writeErr hasCb).1.bytesSent =
       s.bytesSent) ∧
    (send s data WriteOutcome.drainErr hasCb =
       ({ s with bytesSent := s.bytesSent + data.length }, [],
        ⟨data.length⟩,
        if hasCb then some ⟨data.length⟩ else none)) := by
  refine ⟨⟨?_, ?_, ?_, ?_, ?_⟩, ?_⟩ <;> simp [send, hc, hp]

/-- C6 witness: at the concrete open state, a failing write changes
nothing and returns 0 while a failing drain increments the counter and
returns the byte length. -/
theorem C6_send_failure_amended_witness :
    (send sOpen [1, 2, 3] WriteOutcome.writeErr true =
       (sOpen, [], ⟨0⟩, some ⟨0⟩) ∧
     (send sOpen [1, 2, 3] WriteOutcome.writeErr true).1.connected =
       true ∧
     (send sOpen [1, 2, 3] WriteOutcome.writeErr true).1.connectionId =
       sOpen.connectionId ∧
     (send sOpen [1, 2, 3] WriteOutcome.writeErr true).1.port =
       some ⟨"COM3", true⟩ ∧
     (send sOpen [1, 2, 3] WriteOutcome.writeErr true).1.bytesSent =
       sOpen.bytesSent) ∧
    (send sOpen [1, 2, 3] WriteOutcome.drainErr true =
       ({ sOpen with bytesSent := sOpen.bytesSent + 3 }, [],
        ⟨3⟩, some ⟨3⟩)) :=
  C6_send_failure_amended sOpen [1, 2, 3] true ⟨"COM3", true⟩ rfl rfl

/-- Characterization of `disconnect` from a connected state with no close
already requested: when the close attempt throws, the session is marked
disconnected and `connectionInfo` cleared but `port`, `connectionId` and
`bitrate` are retained and a failure event is dispatched; on every other
path (including a close whose callback reports an error, which is only
logged) all connection fields are cleared and a success event is
dispatched. -/
theorem disconnect_open_eq (s : SerialState) (cb : CloseBehavior)
    (h1 : s.connected = true) (h2 : s.closeRequested = false) :
    disconnect s cb =
      if closeAttempted s ∧ cb = CloseBehavior.throws then
        ({ s with connected := false, transmitting := false,
                  reading := false, receiveAttached := false,
                  closeRequested := false, connectionInfo := none,
                  openCanceled := false },
         [Event.disconnectEv false], false)
      else
        ({ s with connected := false, transmitting := false,
                  reading := false, receiveAttached := false,
                  closeRequested := false, port := none,
                  connectionId := none, bitrate := 0,
                  connectionInfo := none, openCanceled := false },
         [Event.disconnectEv true], true) := by
  simp only [disconnect, h1, h2, Bool.not_true, Bool.false_eq_true,
    if_false]
  rfl

/-- C1 counterexample: the claim says every field among port,
connectionId, bitrate and connectionInfo is cleared regardless of whether
closing the handle errors, with a false payload exactly on a close error;
but when the close attempt throws out of the try block the code lands in
the catch branch, which dispatches the failure event yet retains the dead
port handle, the connectionId and the bitrate. -/
theorem C1_disconnect_retains_counterexample :
    (disconnect sOpen CloseBehavior.throws).2 =
      ([Event.disconnectEv false], false) ∧
    (disconnect sOpen CloseBehavior.throws).1.port = some ⟨"COM3", true⟩ ∧
    (disconnect sOpen CloseBehavior.throws).1.connectionId = some "COM3" ∧
    (disconnect sOpen CloseBehavior.throws).1.bitrate = 115200 :=
  ⟨rfl, rfl, rfl, rfl⟩

/-- C1 amended: disconnect from the Open state always leaves the session
marked disconnected; whenever the close attempt does not throw (including
the case where the close callback reports an error, which is only logged)
every connection field is cleared and disconnect(true) is emitted with
return value true; when the close attempt throws, connectionInfo is
cleared and disconnect(false) emitted with return value false, but port,
connectionId and bitrate are retained. -/
theorem C1_disconnect_amended (s : SerialState) (cb : CloseBehavior)
    (h1 : s.connected = true) (h2 : s.closeRequested = false) :
    (disconnect s cb).1.connected = false ∧
    (¬(closeAttempted s = true ∧ cb = CloseBehavior.throws) →
      disconnect s cb =
        ({ s with connected := false, transmitting := false,
                  reading := false, receiveAttached := false,
                  closeRequested := false, port := none,
                  connectionId := none, bitrate := 0,
                  connectionInfo := none, openCanceled := false },
         [Event.disconnectEv true], true)) ∧
    (closeAttempted s = true → cb = CloseBehavior.throws →
      (disconnect s cb).1.port = s.port ∧
      (disconnect s cb).1.connectionId = s.connectionId ∧
      (disconnect s cb).1.bitrate = s.bitrate ∧
      (disconnect s cb).1.connectionInfo = none ∧
      (disconnect s cb).2 = ([Event.disconnectEv false], false)) := by
  rw [disconnect_open_eq s cb h1 h2]
  by_cases hct : closeAttempted s = true ∧ cb = CloseBehavior.throws
  · simp [hct]
  · simp [hct]
    intro ha hb
    exact absurd ⟨ha, hb⟩ hct

/-- C1 witness: the amended behaviour at the concrete open state with a
cleanly closing handle. -/
theorem C1_disconnect_amended_witness :
    (disconnect sOpen CloseBehavior.ok).1.connected = false ∧
    (¬(closeAttempted sOpen = true ∧
        CloseBehavior.ok = CloseBehavior.throws) →
      disconnect sOpen CloseBehavior.ok =
        ({ sOpen with connected := false, transmitting := false,
                      reading := false, receiveAttached := false,
                      closeRequested := false, port := none,
                      connectionId := none, bitrate := 0,
                      connectionInfo := none, openCanceled := false },
         [Event.disconnectEv true], true)) ∧
    (closeAttempted sOpen = true →
      CloseBehavior.ok = CloseBehavior.throws →
      (disconnect sOpen CloseBehavior.ok).1.port = sOpen.port ∧
      (disconnect sOpen CloseBehavior.ok).1.connectionId =
        sOpen.connectionId ∧
      (disconnect sOpen CloseBehavior.ok).1.bitrate = sOpen.bitrate ∧
      (disconnect sOpen CloseBehavior.ok).1.connectionInfo = none ∧
      (disconnect sOpen CloseBehavior.ok).2 =
        ([Event.disconnectEv false], false)) :=
  C1_disconnect_amended sOpen CloseBehavior.ok rfl rfl

/-- C5: from the Open state, when the transport fires its error handler
and then its close handler (or the other way around) for the same
failure, the first handler performs the single teardown and the second
finds the session already disconnected and does nothing: across the two
callbacks exactly one disconnect event is dispatched, for any close
behaviours. -/
theorem C5_single_teardown (s : SerialState) (cb1 cb2 : CloseBehavior)
    (h1 : s.connected = true) (h2 : s.closeRequested = false) :
    ((portError s cb1).1.connected = false ∧
     portClose (portError s cb1).1 cb2 = ((portError s cb1).1, []) ∧
     countDisconnectEvents
       ((portError s cb1).2 ++ (portClose (portError s cb1).1 cb2).2) = 1) ∧
    ((portClose s cb1).1.connected = false ∧
     portError (portClose s cb1).1 cb2 = ((portClose s cb1).1, []) ∧
     countDisconnectEvents
       ((portClose s cb1).2 ++ (portError (portClose s cb1).1 cb2).2) = 1) := by
  have hd := disconnect_open_eq s cb1 h1 h2
  constructor
  · have hcon : (portError s cb1).1.connected = false := by
      simp only [portError, h1, if_true, hd]
      split <;> rfl
    refine ⟨hcon, ?_, ?_⟩
    · simp [portClose, hcon]
    · simp only [portClose, hcon, Bool.false_eq_true, if_false,
        List.append_nil]
      simp only [portError, h1, if_true, hd]
      split <;> rfl
  · have hcon : (portClose s cb1).1.connected = false := by
      simp only [portClose, h1, if_true, hd]
      split <;> rfl
    refine ⟨hcon, ?_, ?_⟩
    · simp [portError, hcon]
    · simp only [portError, hcon, Bool.false_eq_true, if_false,
        List.append_nil]
      simp only [portClose, h1, if_true, hd]
      split <;> rfl

/-- C5 witness: the double-notification guard at the concrete open state
with a throwing first close and a clean second close. -/
theorem C5_single_teardown_witness :
    (((portError sOpen CloseBehavior.throws).1.connected = false ∧
      portClose (portError sOpen CloseBehavior.throws).1 CloseBehavior.ok =
        ((portError sOpen CloseBehavior.throws).1, []) ∧
      countDisconnectEvents
        ((portError sOpen CloseBehavior.throws).2 ++
         (portClose (portError sOpen CloseBehavior.throws).1
            CloseBehavior.ok).2) = 1) ∧
     ((portClose sOpen CloseBehavior.throws).1.connected = false ∧
      portError (portClose sOpen CloseBehavior.throws).1 CloseBehavior.ok =
        ((portClose sOpen CloseBehavior.throws).1, []) ∧
      countDisconnectEvents
        ((portClose sOpen CloseBehavior.throws).2 ++
         (portError (portClose sOpen CloseBehavior.throws).1
            CloseBehavior.ok).2) = 1)) :=
  C5_single_teardown sOpen CloseBehavior.throws CloseBehavior.ok rfl rfl

/-- The removal loop leaves the port list unchanged and emits nothing
when every snapshot entry has its path among the freshly enumerated
paths. -/
theorem removeLoop_all_present (currentPaths : List String)
    (snapshot : List Device)
    (h : ∀ p ∈ snapshot, currentPaths.contains p.path = true) :
    ∀ ports, removeLoop currentPaths ports snapshot = (ports, []) := by
  induction snapshot with
  | nil => intro ports; rfl
  | cons p rest ih =>
    intro ports
    have hp := h p (List.mem_cons_self p rest)
    simp only [removeLoop, hp, if_true]
    exact ih (fun q hq => h q (List.mem_cons_of_mem p hq)) ports

/-- C8: a poll cycle whose enumerated paths cover the known paths and
vice versa emits zero events and leaves the known set unchanged; a poll
cycle whose enumerated list contains exactly one entry with a fresh path
(and still covers every known path) emits exactly one addedDevice event
carrying the descriptor created for that entry and nothing else, appends
that descriptor, and preserves the at-most-one-descriptor-per-path
invariant. -/
theorem C8_poll_diff (table : Nat → Option String) (known : List Device)
    (sys : List PortInfo) :
    ((∀ pi ∈ sys, pi.path ∈ known.map (fun p => p.path)) →
     (∀ d ∈ known, d.path ∈ sys.map (fun p => p.path)) →
       pollDevices table known (some sys) = (known, [])) ∧
    (∀ pi : PortInfo,
       sys.filter
         (fun q => !((known.map (fun p => p.path)).contains q.path)) =
         [pi] →
       (∀ d ∈ known, d.path ∈ sys.map (fun p => p.path)) →
       (known.map (fun p => p.path)).Nodup →
         pollDevices table known (some sys) =
           (known ++ [createPort table pi],
            [Event.addedDevice (createPort table pi)]) ∧
         ((known ++ [createPort table pi]).map
            (fun p => p.path)).Nodup) := by
  constructor
  · intro h1 h2
    have hfil : sys.filter
        (fun q => !((known.map (fun p => p.path)).contains q.path)) = [] := by
      rw [List.filter_eq_nil_iff]
      intro a ha
      simp [h1 a ha]
    have hall : ∀ p ∈ known,
        (sys.map (fun p => p.path)).contains p.path = true := by
      intro p hp
      simpa using h2 p hp
    simp only [pollDevices, hfil, List.map_nil, List.append_nil]
    rw [removeLoop_all_present _ _ hall known]
    rfl
  · intro pi hfil h2 hnd
    have hmem : pi ∈ sys ∧
        (!((known.map (fun p => p.path)).contains pi.path)) = true :=
      List.mem_filter.mp (by rw [hfil]; exact List.mem_singleton_self pi)
    have hnotin : pi.path ∉ known.map (fun p => p.path) := by
      simpa using hmem.2
    have hpath : (createPort table pi).path = pi.path := rfl
    have hall : ∀ p ∈ known ++ [createPort table pi],
        (sys.map (fun p => p.path)).contains p.path = true := by
      intro p hp
      rcases List.mem_append.mp hp with hk | hs
      · simpa using h2 p hk
      · have hp' : p = createPort table pi := by simpa using hs
        subst hp'
        rw [hpath]
        simpa using List.mem_map_of_mem (fun q => q.path) hmem.1
    constructor
    · simp only [pollDevices, hfil, List.map_cons, List.map_nil]
      rw [removeLoop_all_present _ _ hall (known ++ [createPort table pi])]
      simp
    · rw [List.map_append]
      simp only [List.map_cons, List.map_nil, hpath]
      rw [List.nodup_append]
      refine ⟨hnd, List.nodup_singleton _, ?_⟩
      intro a ha hb
      have : a = pi.path := by simpa using hb
      subst this
      exact hnotin ha

/-- C8 witness: at a known set holding the sample port, an unchanged
enumeration emits nothing, and an enumeration adding the COM4 port emits
exactly one addedDevice with its freshly created descriptor. -/
theorem C8_poll_diff_witness :
    pollDevices (fun _ => none) [devCOM3] (some [piCOM3]) =
      ([devCOM3], []) ∧
    (pollDevices (fun _ => none) [devCOM3] (some [piCOM3, piCOM4]) =
       ([devCOM3] ++ [createPort (fun _ => none) piCOM4],
        [Event.addedDevice (createPort (fun _ => none) piCOM4)]) ∧
     (([devCOM3] ++ [createPort (fun _ => none) piCOM4]).map
        (fun p => p.path)).Nodup) :=
  ⟨(C8_poll_diff (fun _ => none) [devCOM3] [piCOM3]).1 (by decide)
     (by decide),
   (C8_poll_diff (fun _ => none) [devCOM3] [piCOM3, piCOM4]).2 piCOM4
     (by decide) (by decide) (by decide)⟩

/-- C9: a cancellation requested while a connect is pending, followed by a
successful underlying open, ends with the just-opened handle closed and
dropped: the final state is disconnected with no port reference and the
cancellation flag cleared, a connect event with detail false is
dispatched, and the call resolves false. -/
theorem C9_cancel_during_connect (s : SerialState) (path : String)
    (baud : Nat) (device : Device) (h1 : s.connected = false)
    (h2 : s.openCanceled = true)
    (h3 : s.ports.find? (fun d => d.path == path) = some device) :
    connect s path baud OpenOutcome.ok =
      ({ s with openRequested := false, closeRequested := false,
                openCanceled := false, port := none },
       [Event.connectEv none], false) := by
  simp [connect, h1, h2, h3]

/-- C9 witness: the canceled open at a concrete pending state. -/
theorem C9_cancel_during_connect_witness :
    connect { sIdle with openCanceled := true, openRequested := true }
        "COM3" 115200 OpenOutcome.ok =
      ({ { sIdle with openCanceled := true, openRequested := true } with
          openRequested := false, closeRequested := false,
          openCanceled := false, port := none },
       [Event.connectEv none], false) :=
  C9_cancel_during_connect
    { sIdle with openCanceled := true, openRequested := true }
    "COM3" 115200 devCOM3 rfl rfl rfl

end NWSerial

namespace PortHandler

/-- C3: the selection priority hint > heuristic > virtual > manual > none
holds for every input combination: a supplied suggested device wins
unconditionally (even when a heuristic filter also matches a listed
device, since the conclusion holds for all device lists); with no hint, a
heuristic match wins regardless of the mode flags; with no hint and no
match, the result is "virtual" when virtual mode is enabled, else
"manual" when manual mode is enabled, else undefined with the selection
set to the "noselection" sentinel. -/
theorem C3_selector_priority
    (serialPorts usbPorts bluetoothPorts : List PHDevice)
    (suggested : Option PHDevice) (v m : Bool) :
    (∀ d, suggested = some d →
       selectActivePort serialPorts usbPorts bluetoothPorts suggested v m =
         (some d.path, d.path)) ∧
    (∀ d, suggested = none →
       firstFilterMatch portFilters
         (serialPorts ++ usbPorts ++ bluetoothPorts) = some d →
       selectActivePort serialPorts usbPorts bluetoothPorts suggested v m =
         (some d.path, d.path)) ∧
    (suggested = none →
     firstFilterMatch portFilters
       (serialPorts ++ usbPorts ++ bluetoothPorts) = none →
       ((v = true →
           selectActivePort serialPorts usbPorts bluetoothPorts suggested
             v m = (some "virtual", "virtual")) ∧
        (v = false → m = true →
           selectActivePort serialPorts usbPorts bluetoothPorts suggested
             v m = (some "manual", "manual")) ∧
        (v = false → m = false →
           selectActivePort serialPorts usbPorts bluetoothPorts suggested
             v m = (none, "noselection")))) := by
  refine ⟨?_, ?_, ?_⟩
  · rintro d rfl
    rfl
  · rintro d rfl hm
    simp only [selectActivePort]
    rw [hm]
  · rintro rfl hm
    refine ⟨?_, ?_, ?_⟩
    · rintro rfl
      simp only [selectActivePort]
      rw [hm]
      simp
    · rintro rfl rfl
      simp only [selectActivePort]
      rw [hm]
      simp
    · rintro rfl rfl
      simp only [selectActivePort]
      rw [hm]
      simp

/-- C3 witness: the test scenarios: the hint wins over the matching STM
device, the STM device is selected without a hint, and with only an
unrecognized device the virtual, manual and no-selection outcomes follow
the flags. -/
theorem C3_selector_priority_witness :
    (selectActivePort [stmDev] [] [] (some hintDev) false false =
       (some "COM10", "COM10")) ∧
    (selectActivePort [stmDev] [] [] none false false =
       (some "COM3", "COM3")) ∧
    (selectActivePort [unknownDev] [] [] none true false =
       (some "virtual", "virtual")) ∧
    (selectActivePort [unknownDev] [] [] none false true =
       (some "manual", "manual")) ∧
    (selectActivePort [unknownDev] [] [] none false false =
       (none, "noselection")) :=
  ⟨(C3_selector_priority [stmDev] [] [] (some hintDev) false false).1
     hintDev rfl,
   (C3_selector_priority [stmDev] [] [] none false false).2.1 stmDev rfl
     (by decide),
   ((C3_selector_priority [unknownDev] [] [] none true false).2.2 rfl
     (by decide)).1 rfl,
   ((C3_selector_priority [unknownDev] [] [] none false true).2.2 rfl
     (by decide)).2.1 rfl rfl,
   ((C3_selector_priority [unknownDev] [] [] none false false).2.2 rfl
     (by decide)).2.2 rfl rfl⟩

end PortHandler
